import Mathlib

/-!
Verification of the llm-orchestrator request-lifecycle engine.

Shallow embedding of the core components of the repository:
request router (app/services/router.py), chat endpoint logging
(app/api/routes/chat.py), token estimator
(app/services/token_estimator.py), load balancer
(app/services/balancer.py), health prober
(app/services/health_check.py), the Anthropic and Gemini request
converters (app/providers/anthropic.py, app/providers/gemini.py) and
the models listing endpoint (app/api/routes/models.py).

Python values that can be absent (None) are modelled with Option;
Python truthiness of ints, strings and lists is made explicit at each
use site.  Wall-clock time, the HTTP transport and the database
session are abstracted: upstream call results are passed in as
explicit outcome functions, and database effects are returned as
explicit lists of log rows.
-/

/-! ## Data model -/

/-- Row of the providers table (app/models/provider.py); only the columns
the embedded components read are carried. -/
structure Provider where
  id : Nat
  name : String
  enabled : Bool
  priority : Nat
  weight : Nat
  deriving Repr, DecidableEq

/-- Row of the provider_health table as the ORM maps it
(app/models/health.py, ProviderHealth): flag, error bookkeeping and
retry timestamps.  Note the model declares NO consecutive_failures,
total_checks, successful_checks, success_rate, response_time_ms,
error_message or last_check attribute. -/
structure ProviderHealthRec where
  provider_id : Nat
  is_healthy : Bool
  error_count : Nat
  last_error : Option String
  last_status_code : Option Nat
  last_validated_at : Option Nat
  last_success_at : Option Nat
  next_retry_at : Option Nat
  consecutive_successes : Nat
  deriving Repr, DecidableEq

/-- Row of the models table (app/models/provider.py, class ModelConfig). -/
structure ModelConfigRec where
  id : Nat
  name : String
  created_at : Nat
  deriving Repr, DecidableEq

/-- The usage triple of the canonical schema (app/api/schemas.py, Usage). -/
structure Usage where
  prompt_tokens : Nat
  completion_tokens : Nat
  total_tokens : Nat
  deriving Repr, DecidableEq

/-- The columns mapped on the RequestLog declarative model
(app/models/request_log.py): name / provider_model / provider_name /
status / style / error / retry / timing / token columns.  The model
declares NONE of the provider_id, model, endpoint, method,
status_code, error_message, latency_ms, user_id or ip_address
keywords the service layer passes when constructing rows. -/
def requestLogColumns : List String :=
  ["id", "name", "provider_model", "provider_name", "status", "style",
   "error", "retry", "proxy_time", "first_chunk_time", "chunk_time",
   "tps", "prompt_tokens", "completion_tokens", "total_tokens",
   "created_at"]

/-- The columns and relationships mapped on the Provider model
(app/models/provider.py): credentials live inside the config JSON
column; there is no api_key or base_url attribute. -/
def providerColumns : List String :=
  ["id", "name", "type", "config", "enabled", "priority", "weight",
   "max_retries", "timeout", "rate_limit", "created_at", "updated_at",
   "model_providers", "health_status", "usage_stats"]

/-- The columns and relationships mapped on the ProviderHealth model
(app/models/health.py). -/
def providerHealthColumns : List String :=
  ["id", "provider_id", "is_healthy", "error_count", "last_error",
   "last_status_code", "last_validated_at", "last_success_at",
   "next_retry_at", "consecutive_successes", "provider"]

/-- The SQLAlchemy declarative constructor: raises TypeError as soon
as some keyword is not a mapped column or relationship. -/
def sqlalchemyInit (declared kwargs : List String) : Except String Unit :=
  match kwargs.find? (fun k => !declared.contains k) with
  | some k => .error ("TypeError: " ++ k ++ " is an invalid keyword argument")
  | none => .ok ()

/-- Python attribute read on an ORM instance: AttributeError when the
attribute is not a mapped column or relationship. -/
def getattrOrm (declared : List String) (attr : String) : Except String Unit :=
  if declared.contains attr then .ok () else .error ("AttributeError: " ++ attr)

/-- One attempted RequestLog construction, recorded by the keyword
names its call site passes (the values go into columns only if the
constructor accepts the keywords at all). -/
abbrev LogWriteAttempt := List String

/-- Whether a construction attempt gets past the constructor. -/
def ctorOk (kwargs : LogWriteAttempt) : Bool :=
  match sqlalchemyInit requestLogColumns kwargs with
  | .ok _ => true
  | .error _ => false

/-- Rows actually persisted out of a list of attempted log writes:
every _log_* helper catches the constructor TypeError and rolls back
(router.py lines 388, 441, 480; chat.py lines 224, 294), so only an
attempt whose constructor succeeds adds a row. -/
def persistedRows (attempts : List LogWriteAttempt) : Nat :=
  (attempts.filter ctorOk).length

/-- Message role (app/api/schemas.py, MessageRole). -/
inductive Role where
  | system
  | user
  | assistant
  | function
  | tool
  deriving Repr, DecidableEq

/-- Chat message of the canonical schema (app/api/schemas.py, ChatMessage):
content is Optional[str]. -/
structure Message where
  role : Role
  content : Option String
  deriving Repr, DecidableEq

/-- The stop field: Optional[Union[str, List[str]]]. -/
inductive StopField where
  | str (s : String)
  | list (l : List String)
  deriving Repr, DecidableEq

/-- Canonical chat completion request (app/api/schemas.py,
ChatCompletionRequest); the fields the embedded components read. -/
structure ChatRequest where
  model : String
  messages : List Message
  temperature : Option ℚ
  top_p : Option ℚ
  max_tokens : Option Nat
  stop : Option StopField
  stream : Bool
  provider : Option String
  fallback_providers : Option (List String)
  timeout : Option Nat
  retry_count : Option Nat
  deriving Repr, DecidableEq

/-- Canonical chat completion response (app/api/schemas.py,
ChatCompletionResponse); the fields the router reads. -/
structure ChatResponse where
  id : String
  usage : Option Usage
  deriving Repr, DecidableEq

/-- Database state visible to the embedded components: the providers
table and the provider_health table. -/
structure DbState where
  providers : List Provider
  health : List ProviderHealthRec
  deriving Repr, DecidableEq

/-! ## Python helpers

Explicit models of the Python idioms the source leans on. -/

/-- Python `x or d` on an optional int: None and 0 are falsy. -/
def pyOrNat (x : Option Nat) (d : Nat) : Nat :=
  match x with
  | none => d
  | some n => if n = 0 then d else n

/-- Python truthiness of an optional string: None and the empty string
are falsy. -/
def pyTruthyStr (x : Option String) : Option String :=
  match x with
  | none => none
  | some s => if s = "" then none else some s

/-- Python `int()` on a float/rational: truncation toward zero. -/
def pyInt (q : ℚ) : ℤ :=
  if 0 ≤ q then ⌊q⌋ else -⌊-q⌋

/-- Characters matched by the regex escape backslash-s on an ASCII
haystack (the haystacks the estimator builds are ASCII digits). -/
def pyIsSpace (c : Char) : Bool :=
  c = ' ' || c = '\t' || c = '\n' || c = '\x0b' || c = '\x0c' || c = '\r'

/-! ## Token estimator (app/services/token_estimator.py)

The estimator calls `re.findall` with a character-class pattern.  We
model the fragment of the CPython `re` compiler these two patterns
exercise: a single character class with literals, ranges and escapes.
CPython rejects an escape of an ASCII letter that is not a known escape
("bad escape"); in particular the escape backslash-p (Unicode property
syntax, which the `re` module does not support) raises `re.error` at
compile time.  `re.findall` compiles its pattern on every call, so the
error surfaces on every call of `estimate_messages_tokens`. -/

/-- Item of a compiled character class. -/
inductive CharsetItem where
  | lit (c : Char)
  | range (lo hi : Char)
  | digits
  | spaces
  deriving Repr, DecidableEq

/-- Whether a single class item matches a character. -/
def matchCharsetItem (c : Char) : CharsetItem → Bool
  | .lit c0 => c = c0
  | .range lo hi => lo ≤ c && c ≤ hi
  | .digits => c.isDigit
  | .spaces => pyIsSpace c

/-- Parse the body of a regex character class.  Escapes of ASCII letters
other than the supported ones are `re.error` ("bad escape"), as in
CPython 3.8+. -/
def parseCharsetItems : List Char → Except String (List CharsetItem)
  | [] => .ok []
  | '\\' :: [] => .error "bad escape at end of pattern"
  | '\\' :: c :: rest =>
    if c = 's' then (parseCharsetItems rest).map (CharsetItem.spaces :: ·)
    else if c = 'd' then (parseCharsetItems rest).map (CharsetItem.digits :: ·)
    else if c.isAlpha then .error ("bad escape \\" ++ c.toString)
    else (parseCharsetItems rest).map (CharsetItem.lit c :: ·)
  | lo :: '-' :: hi :: rest =>
    if hi = ']' then (parseCharsetItems ('-' :: hi :: rest)).map (CharsetItem.lit lo :: ·)
    else (parseCharsetItems rest).map (CharsetItem.range lo hi :: ·)
  | c :: rest => (parseCharsetItems rest).map (CharsetItem.lit c :: ·)

/-- Compile a pattern of the shape `[ ... ]` into a character matcher,
or fail the way `re.compile` fails. -/
def reCompileCharset (pat : List Char) : Except String (Char → Bool) :=
  match pat with
  | '[' :: rest =>
    if rest.getLast? = some ']' then
      (parseCharsetItems rest.dropLast).map fun items c => items.any (matchCharsetItem c)
    else .error "unterminated character set"
  | _ => .error "unsupported pattern"

/-- `re.findall(pat, s)` for a character-class pattern: count of
matching characters, or the compile error. -/
def reFindallCount (pat : List Char) (s : String) : Except String Nat :=
  (reCompileCharset pat).map fun m => (s.data.filter m).length

/-- Left brace, written by code point to keep it out of string literals. -/
def lbraceChar : Char := Char.ofNat 123

/-- Right brace, written by code point. -/
def rbraceChar : Char := Char.ofNat 125

/-- The pattern of estimate_messages_tokens, from the source:
left bracket, a-z, A-Z, 0-9, backslash s, backslash p, brace P brace,
right bracket. -/
def messagesFindallPat : List Char :=
  ['[', 'a', '-', 'z', 'A', '-', 'Z', '0', '-', '9', '\\', 's',
   '\\', 'p', lbraceChar, 'P', rbraceChar, ']']

/-- The pattern of estimate_completion_tokens, from the source:
left bracket, a-z, A-Z, 0-9, backslash s, right bracket. -/
def completionFindallPat : List Char :=
  ['[', 'a', '-', 'z', 'A', '-', 'Z', '0', '-', '9', '\\', 's', ']']

/-- A message as the estimator signature declares it
(List[Dict[str, Any]]): `msg.get("content", "")` yields the stored
string or the empty string. -/
structure DictMessage where
  role : String
  content : Option String
  deriving Repr, DecidableEq

/-- TokenEstimator.estimate_messages_tokens.  Faithful to the source:
`total_chars` sums content lengths plus 40 per message, then
`english_chars = len(re.findall(pattern, str(total_chars)))` runs
findall over the DECIMAL STRING of the count with a pattern whose
backslash-p escape `re` rejects, so the call raises; an `.error`
result models the raised exception. -/
def estimate_messages_tokens (messages : List DictMessage) : Except String Nat :=
  let total_chars : Nat :=
    messages.foldl (fun acc m => acc + (m.content.getD "").length + 40) 0
  match reFindallCount messagesFindallPat (toString total_chars) with
  | .error e => .error e
  | .ok english_chars =>
    let chinese_chars : ℤ := (total_chars : ℤ) - (english_chars : ℤ)
    let estimated_tokens : ℤ :=
      pyInt ((english_chars : ℚ) / 4 + (chinese_chars : ℚ) / (3 / 2 : ℚ))
    .ok (max estimated_tokens 10).toNat

/-- TokenEstimator.estimate_completion_tokens.  Its pattern compiles,
so it behaves as its docstring says: english characters are ASCII
letters, digits and whitespace; the rest count as cjk; the result is
`int(e / 4.0 + c / 1.5)` floored at 1, and 0 for empty content. -/
def estimate_completion_tokens (content : String) : Except String Nat :=
  if content = "" then .ok 0
  else
    match reFindallCount completionFindallPat content with
    | .error e => .error e
    | .ok english_chars =>
      let chinese_chars : ℤ := (content.length : ℤ) - (english_chars : ℤ)
      let estimated_tokens : ℤ :=
        pyInt ((english_chars : ℚ) / 4 + (chinese_chars : ℚ) / (3 / 2 : ℚ))
      .ok (max estimated_tokens 1).toNat

/-! ## Streaming accountant (app/api/routes/chat.py, tracked_stream) -/

/-- The parsed JSON of the last remembered data frame, as the finaliser
inspects it: an optional usage object.  A missing or null usage key and
a usage object are distinguished only through the guard
`"usage" in data and data["usage"] and data["usage"].get("total_tokens", 0) > 0`. -/
structure PyChunk where
  usage : Option Usage
  deriving Repr, DecidableEq

/-- The estimation fallback of the finaliser (chat.py lines 178-198):
estimate prompt tokens over the request messages and completion tokens
over the accumulated content.  Any exception is caught by the
surrounding `except` (line 199), leaving usage_info = None; an
`.error` from either estimator therefore yields none. -/
def estimateUsageFallback (reqMessages : List DictMessage)
    (accumulated : String) : Option Usage :=
  match estimate_messages_tokens reqMessages with
  | .error _ => none
  | .ok prompt_tokens =>
    match estimate_completion_tokens accumulated with
    | .error _ => none
    | .ok completion_tokens =>
      some { prompt_tokens := prompt_tokens
             completion_tokens := completion_tokens
             total_tokens := prompt_tokens + completion_tokens }

/-- Usage extraction of the tracked_stream finaliser (chat.py lines
163-200): if the last chunk reports usage with total_tokens > 0 take
it, otherwise fall back to estimation; no last chunk means no usage. -/
def extractOrEstimateUsage (reqMessages : List DictMessage)
    (lastChunk : Option PyChunk) (accumulated : String) : Option Usage :=
  match lastChunk with
  | none => none
  | some ch =>
    match ch.usage with
    | some u =>
      if 0 < u.total_tokens then some u
      else estimateUsageFallback reqMessages accumulated
    | none => estimateUsageFallback reqMessages accumulated

/-- The keywords of the finaliser's RequestLog construction
(chat.py lines 205-217). -/
def streamFinaliserKwargs : LogWriteAttempt :=
  ["provider_id", "model", "endpoint", "method", "status_code",
   "prompt_tokens", "completion_tokens", "total_tokens", "latency_ms",
   "user_id", "ip_address"]

/-- The log write after stream end (chat.py lines 202-226): build the
row and commit.  The constructor raises TypeError on the unmapped
keywords; the except at chat.py line 224 catches it and rolls back, so
the number of rows persisted is decided by the constructor alone,
whatever usage_info was computed. -/
def streamFinaliserPersistedRows : Nat :=
  persistedRows [streamFinaliserKwargs]

/-! ## Request router (app/services/router.py) -/

/-- settings.max_retry_count (app/core/config.py, default 3). -/
def max_retry_count : Nat := 3

/-- `retry_count = request.retry_count or settings.max_retry_count`
(router.py line 158): Python `or`, so both an absent hint and an
explicit 0 fall back to the global default. -/
def effectiveRetryCount (hint : Option Nat) : Nat :=
  pyOrNat hint max_retry_count

/-- RequestRouter._get_provider: query the providers table for a row
with the given name AND enabled == True (router.py lines 341-346). -/
def get_provider (db : DbState) (providerName : String) : Option Provider :=
  db.providers.find? (fun p => p.name == providerName && p.enabled)

/-- The keywords of _log_request's RequestLog construction
(router.py lines 371-383). -/
def logRequestKwargs : LogWriteAttempt :=
  ["provider_id", "model", "endpoint", "method", "status_code",
   "prompt_tokens", "completion_tokens", "total_tokens", "latency_ms",
   "user_id", "ip_address"]

/-- The keywords of _log_failed_request's RequestLog construction
(router.py lines 465-475). -/
def logFailedRequestKwargs : LogWriteAttempt :=
  ["provider_id", "model", "endpoint", "method", "status_code",
   "error_message", "latency_ms", "user_id", "ip_address"]

/-- The keywords of the endpoint handler's failure RequestLog
construction (chat.py lines 281-291). -/
def chatEndpointFailKwargs : LogWriteAttempt :=
  ["provider_id", "model", "endpoint", "method", "status_code",
   "error_message", "user_id", "ip_address", "latency_ms"]

/-- The body of one attempt (router.py lines 176-184): create_provider
evaluates provider.type (a mapped column) and then provider.api_key,
which the Provider model does not declare, so the access raises
AttributeError inside the attempt's try before any upstream request is
made.  `upstream` stands for what provider_instance.chat_completion
would return were it ever reached. -/
def attemptOutcome (upstream : Nat → Except String ChatResponse)
    (attempt : Nat) : Except String ChatResponse :=
  match getattrOrm providerColumns "type" with
  | .error e => .error e
  | .ok _ =>
    match getattrOrm providerColumns "api_key" with
    | .error e => .error e
    | .ok _ => upstream attempt

/-- Observable trace of one _try_provider call: attempts made, backoff
sleeps performed (in seconds, in order), attempted log writes (by their
keyword lists; none of them persists, see persistedRows), and the
returned response or raised error. -/
structure TryTrace where
  attempts : Nat
  sleeps : List Nat
  logAttempts : List LogWriteAttempt
  result : Except String ChatResponse
  deriving Repr

/-- The retry loop of _try_provider (router.py lines 168-209), with the
attempt body abstracted as `outcome attempt` — in this repository the
body always raises AttributeError at provider.api_key before any
upstream call (see attemptOutcome), so only error outcomes are
realizable.  `remaining` counts the attempts still allowed after the
current one, so the loop `for attempt in range(retry_count + 1)` starts
as `runAttempts outcome 0 retry_count`.  A failed attempt with attempts
remaining sleeps min(2 ** attempt, 10) and continues; the final failure
attempts one failure-log write and raises. -/
def runAttempts (outcome : Nat → Except String ChatResponse) :
    Nat → Nat → TryTrace
  | attempt, 0 =>
    match outcome attempt with
    | .ok r =>
      { attempts := 1, sleeps := []
        logAttempts := [logRequestKwargs], result := .ok r }
    | .error e =>
      { attempts := 1, sleeps := []
        logAttempts := [logFailedRequestKwargs], result := .error e }
  | attempt, remaining + 1 =>
    match outcome attempt with
    | .ok r =>
      { attempts := 1, sleeps := []
        logAttempts := [logRequestKwargs], result := .ok r }
    | .error _ =>
      let t := runAttempts outcome (attempt + 1) remaining
      { attempts := t.attempts + 1
        sleeps := min (2 ^ attempt) 10 :: t.sleeps
        logAttempts := t.logAttempts
        result := t.result }

/-- RequestRouter._try_provider (router.py lines 132-222): resolve the
provider (raising when missing or disabled, with no log write), then
run the retry loop. -/
def try_provider (db : DbState) (providerName : String) (req : ChatRequest)
    (outcome : Nat → Except String ChatResponse) : TryTrace :=
  let retryCount := effectiveRetryCount req.retry_count
  match get_provider db providerName with
  | none =>
    { attempts := 0, sleeps := [], logAttempts := []
      result := .error ("Provider " ++ providerName ++ " not found or disabled") }
  | some _ => runAttempts outcome 0 retryCount

/-- Observable trace of route_request: attempted log writes and either
the response annotated with the winning provider name, or the
per-provider error map of the final raise. -/
structure RouteTrace where
  logAttempts : List LogWriteAttempt
  result : Except (List (String × String)) (ChatResponse × String)
  deriving Repr

/-- The provider loop of route_request (router.py lines 83-130): try
each provider in sequence; the first success wins; errors are collected
into last_errors, and when the list is exhausted the call raises with
the collected errors. -/
def routeGo (db : DbState) (req : ChatRequest)
    (outcomes : String → Nat → Except String ChatResponse) :
    List String → RouteTrace
  | [] => { logAttempts := [], result := .error [] }
  | n :: rest =>
    let t := try_provider db n req (outcomes n)
    match t.result with
    | .ok r => { logAttempts := t.logAttempts, result := .ok (r, n) }
    | .error e =>
      let tr := routeGo db req outcomes rest
      { logAttempts := t.logAttempts ++ tr.logAttempts
        result :=
          match tr.result with
          | .ok v => .ok v
          | .error errs => .error ((n, e) :: errs) }

/-- RequestRouter.route_request (router.py lines 45-130): the provider
list is the primary followed by the fallbacks. -/
def route_request (db : DbState) (providerName : String) (req : ChatRequest)
    (outcomes : String → Nat → Except String ChatResponse) : RouteTrace :=
  routeGo db req outcomes (providerName :: (req.fallback_providers.getD []))

/-- The non-streaming branch of create_chat_completion (chat.py lines
237-307): on success the attempted writes are exactly those
route_request made; on failure the except handler (lines 280-293)
attempts one more construction with its own keyword list.  Every
attempt's constructor raises TypeError, so none persists. -/
def chatCompletionLogs (db : DbState) (providerName : String)
    (req : ChatRequest)
    (outcomes : String → Nat → Except String ChatResponse) :
    List LogWriteAttempt :=
  let t := route_request db providerName req outcomes
  match t.result with
  | .ok _ => t.logAttempts
  | .error _ => t.logAttempts ++ [chatEndpointFailKwargs]

/-! ## Load balancer (app/services/balancer.py) -/

/-- Entry of the providers_data list the balancer builds
(balancer.py lines 150-156). -/
structure ProviderData where
  id : Nat
  name : String
  weight : Nat
  priority : Nat
  is_healthy : Bool
  deriving Repr, DecidableEq

/-- The health row joined to a provider: outer join of provider_health
on provider_id (balancer.py lines 132-137). -/
def findHealth (db : DbState) (providerId : Nat) : Option ProviderHealthRec :=
  db.health.find? (fun h => h.provider_id == providerId)

/-- Stable descending insertion by priority; models the SQL
ORDER BY priority DESC of the balancer query. -/
def insertByPriority (p : Provider) : List Provider → List Provider
  | [] => [p]
  | q :: rest =>
    if q.priority < p.priority then p :: q :: rest
    else q :: insertByPriority p rest

/-- Stable sort by priority descending. -/
def sortByPriorityDesc : List Provider → List Provider
  | [] => []
  | p :: rest => insertByPriority p (sortByPriorityDesc rest)

/-- The rows of the balancer query: enabled providers outer-joined with
their health record, ordered by priority descending
(balancer.py lines 132-140). -/
def balancerQueryRows (db : DbState) : List (Provider × Option ProviderHealthRec) :=
  (sortByPriorityDesc (db.providers.filter (·.enabled))).map
    fun p => (p, findHealth db p.id)

/-- The health side of the snapshot filter: a provider with no health
row counts as healthy; one with a row is healthy iff the row says so. -/
def snapshotHealthy (db : DbState) (p : Provider) : Prop :=
  ∀ hrec, findHealth db p.id = some hrec → hrec.is_healthy = true

/-- LoadBalancer._get_healthy_providers (balancer.py lines 125-158):
keep a row iff its health record is missing or healthy; every stored
entry records is_healthy as that (true) value. -/
def get_healthy_providers (db : DbState) : List ProviderData :=
  (balancerQueryRows db).filterMap fun pr =>
    let is_healthy := pr.2.isNone || (pr.2.map (·.is_healthy)).getD false
    if is_healthy then
      some { id := pr.1.id, name := pr.1.name, weight := pr.1.weight
             priority := pr.1.priority, is_healthy := is_healthy }
    else none

/-- The cumulative-weight walk of _weighted_random_selection
(balancer.py lines 190-196), with the draw `rand` passed in;
the trailing `return providers[-1]["name"]` is the lastName argument. -/
def weightedWalk (lastName : String) (rand : ℚ) (cumulative : ℚ) :
    List ProviderData → String
  | [] => lastName
  | p :: rest =>
    let cumulative' := cumulative + (p.weight : ℚ)
    if rand ≤ cumulative' then p.name
    else weightedWalk lastName rand cumulative' rest

/-- LoadBalancer._weighted_random_selection (balancer.py lines
160-196).  Randomness is passed in explicitly: `rand` models
random.uniform(0, total_weight) and `choiceIdx` models the index drawn
by random.choice when every weight is zero. -/
def weighted_random_selection (providers : List ProviderData)
    (rand : ℚ) (choiceIdx : Nat) : Except String String :=
  match providers with
  | [] => .error "No providers available for selection"
  | p0 :: rest =>
    if rest = [] then .ok p0.name
    else
      let total_weight := (p0 :: rest).foldl (fun acc p => acc + p.weight) 0
      if total_weight = 0 then
        .ok (((p0 :: rest).get ⟨choiceIdx % (p0 :: rest).length, Nat.mod_lt _ (by simp)⟩).name)
      else
        .ok (weightedWalk (((p0 :: rest).getLast (by simp)).name) rand 0 (p0 :: rest))

/-- The fallback scan of select_provider (balancer.py lines 74-79):
the first fallback name present in providers_data with is_healthy wins. -/
def fallbackScan (providersData : List ProviderData) :
    List String → Option String
  | [] => none
  | fn :: rest =>
    match providersData.find? (fun d => d.name == fn && d.is_healthy) with
    | some _ => some fn
    | none => fallbackScan providersData rest

/-- LoadBalancer.select_provider (balancer.py lines 38-93), on the
cache-miss path: load the healthy snapshot (raising when it is empty),
try the fallback list in order, otherwise run weighted random
selection. -/
def select_provider (db : DbState) (fallback_providers : Option (List String))
    (rand : ℚ) (choiceIdx : Nat) : Except String String :=
  let providers_data := get_healthy_providers db
  if providers_data = [] then .error "No healthy providers available"
  else
    match fallback_providers with
    | some fbs =>
      match fallbackScan providers_data fbs with
      | some name => .ok name
      | none => weighted_random_selection providers_data rand choiceIdx
    | none => weighted_random_selection providers_data rand choiceIdx

/-! ## Health prober (app/services/health_check.py) -/

/-- Outcome of one synthetic probe: success with a measured wall
latency, or failure with the stringified exception. -/
inductive ProbeOutcome where
  | success (response_time_ms : Nat)
  | failure (error : String)
  deriving Repr, DecidableEq

/-- The keywords of the ProviderHealth creation at health_check.py
lines 107-114. -/
def healthCreateKwargs : List String :=
  ["provider_id", "is_healthy", "consecutive_failures", "total_checks",
   "successful_checks", "last_check"]

/-- The record bookkeeping of check_provider_health (health_check.py
lines 98-194), traced against the mapped columns of ProviderHealth.
With no existing record, the creation at line 107 raises TypeError on
its unmapped keywords before the probe even runs.  With an existing
record, the probe runs first (its own try swallows the
provider.api_key AttributeError as a failed probe) and then the first
update statement, health.total_checks += 1 at line 170, reads an
undeclared attribute and raises AttributeError.  Either way the call
raises before any flag or counter is written, so an `.ok` result can
never be produced; the ok branches below are unreachable and return
the store unchanged. -/
def check_provider_health_run (existing : Option ProviderHealthRec)
    (probe : ProbeOutcome) : Except String (Option ProviderHealthRec) :=
  match probe, existing with
  | _, none =>
    match sqlalchemyInit providerHealthColumns healthCreateKwargs with
    | .error e => .error e
    | .ok _ => .ok none
  | _, some h =>
    match getattrOrm providerHealthColumns "total_checks" with
    | .error e => .error e
    | .ok _ => .ok (some h)

/-! ## Anthropic request conversion (app/providers/anthropic.py) -/

/-- The outgoing Anthropic Messages request
(anthropic.py lines 165-187). -/
structure AnthropicRequest where
  model : String
  messages : List (String × Option String)
  max_tokens : Nat
  system : Option String
  temperature : Option ℚ
  top_p : Option ℚ
  stop_sequences : Option (List String)
  deriving Repr, DecidableEq

/-- The alias table of _map_model_name (anthropic.py lines 308-316). -/
def anthropicModelMap : List (String × String) :=
  [("claude-3-opus", "claude-3-opus-20240229"),
   ("claude-3-sonnet", "claude-3-sonnet-20240229"),
   ("claude-3-haiku", "claude-3-haiku-20240307"),
   ("claude-3.5-sonnet", "claude-3-5-sonnet-20240620"),
   ("claude-2", "claude-2.1"),
   ("claude-2.1", "claude-2.1"),
   ("claude-2.0", "claude-2.0")]

/-- AnthropicProvider._map_model_name (anthropic.py lines 297-319):
`model_map.get(model, model)`. -/
def map_model_name (model : String) : String :=
  match anthropicModelMap.find? (fun kv => kv.1 == model) with
  | some kv => kv.2
  | none => model

/-- The message loop of _convert_to_anthropic_format (anthropic.py
lines 152-163): every system message overwrites system_message; every
other message is appended with role "user" for USER and "assistant"
otherwise. -/
def anthropicHoist (msgs : List Message) :
    Option String × List (String × Option String) :=
  msgs.foldl
    (fun acc m =>
      if m.role = .system then (m.content, acc.2)
      else
        (acc.1,
         acc.2 ++ [(if m.role = .user then "user" else "assistant", m.content)]))
    (none, [])

/-- The Python truthiness guard on the stop field
(`if request.stop:`, anthropic.py line 182 and gemini.py line 189),
and the wrapping of a bare string into a list. -/
def pyStopSequences (stop : Option StopField) : Option (List String) :=
  match stop with
  | none => none
  | some (.str s) => if s = "" then none else some [s]
  | some (.list l) => if l = [] then none else some l

/-- AnthropicProvider._convert_to_anthropic_format (anthropic.py lines
139-187): hoist the system message, map the model name through the
alias table, default max_tokens with `request.max_tokens or 4096`,
attach the system field only when truthy, copy temperature and top_p
when not None, and rename a truthy stop to stop_sequences. -/
def convert_to_anthropic_format (req : ChatRequest) : AnthropicRequest :=
  let hoisted := anthropicHoist req.messages
  { model := map_model_name req.model
    messages := hoisted.2
    max_tokens := pyOrNat req.max_tokens 4096
    system := pyTruthyStr hoisted.1
    temperature := req.temperature
    top_p := req.top_p
    stop_sequences := pyStopSequences req.stop }

/-! ## Gemini request conversion (app/providers/gemini.py) -/

/-- One entry of the Gemini contents array (gemini.py lines 161-164):
a role and `parts: [ text ]` holding the message content. -/
structure GeminiContent where
  role : String
  parts : List (Option String)
  deriving Repr, DecidableEq

/-- The generationConfig object (gemini.py lines 178-196). -/
structure GenerationConfig where
  temperature : Option ℚ
  topP : Option ℚ
  maxOutputTokens : Option Nat
  stopSequences : Option (List String)
  deriving Repr, DecidableEq

/-- The outgoing Gemini GenerateContent request
(gemini.py lines 166-198). -/
structure GeminiRequest where
  contents : List GeminiContent
  systemInstruction : Option String
  generationConfig : Option GenerationConfig
  deriving Repr, DecidableEq

/-- The message loop of _convert_to_gemini_format (gemini.py lines
155-164): every system message overwrites system_instruction; every
other message is appended with role "user" for USER and "model"
otherwise. -/
def geminiHoist (msgs : List Message) :
    Option String × List GeminiContent :=
  msgs.foldl
    (fun acc m =>
      if m.role = .system then (m.content, acc.2)
      else
        (acc.1,
         acc.2 ++ [{ role := if m.role = .user then "user" else "model"
                     parts := [m.content] }]))
    (none, [])

/-- GeminiProvider._convert_to_gemini_format (gemini.py lines 138-198):
build contents, attach systemInstruction only when truthy, and include
generationConfig only when at least one of its entries is set (the
`if generation_config:` truthiness check on the dict). -/
def convert_to_gemini_format (req : ChatRequest) : GeminiRequest :=
  let hoisted := geminiHoist req.messages
  let gc : GenerationConfig :=
    { temperature := req.temperature
      topP := req.top_p
      maxOutputTokens := req.max_tokens
      stopSequences := pyStopSequences req.stop }
  { contents := hoisted.2
    systemInstruction := pyTruthyStr hoisted.1
    generationConfig :=
      if gc.temperature = none ∧ gc.topP = none ∧ gc.maxOutputTokens = none ∧
          gc.stopSequences = none then none
      else some gc }

/-! ## Models listing (app/api/routes/models.py) -/

/-- One entry of the /v1/models response (app/api/schemas.py, Model). -/
structure ModelEntry where
  id : String
  object : String
  created : Nat
  owned_by : Option String
  deriving Repr, DecidableEq

/-- The models list response (app/api/schemas.py, ModelsListResponse):
object is the constant "list". -/
structure ModelsListResp where
  object : String
  data : List ModelEntry
  deriving Repr, DecidableEq

/-- The join of the list_models query (models.py lines 55-59):
`select(ModelConfig, Provider).join(Provider, ModelConfig.id ==
Provider.id).where(Provider.enabled == True)`. -/
def modelsQueryRows (modelConfigs : List ModelConfigRec)
    (providers : List Provider) : List (ModelConfigRec × Provider) :=
  modelConfigs.flatMap fun mc =>
    (providers.filter (fun p => p.id == mc.id && p.enabled)).map fun p => (mc, p)

/-- The entry built per row (models.py lines 66-73): id is
"provider_name:model_name" and owned_by is the provider name. -/
def mkModelEntry (row : ModelConfigRec × Provider) : ModelEntry :=
  { id := row.2.name ++ ":" ++ row.1.name
    object := "model"
    created := row.1.created_at
    owned_by := some row.2.name }

/-- GET /v1/models, list_models (models.py lines 32-79), on the
cache-miss path. -/
def list_models (modelConfigs : List ModelConfigRec)
    (providers : List Provider) : ModelsListResp :=
  { object := "list"
    data := (modelsQueryRows modelConfigs providers).map mkModelEntry }

/-! ## Concrete fixtures for witnesses and counterexamples -/

/-- Provider A, id 1, enabled. -/
def provA : Provider :=
  { id := 1, name := "A", enabled := true, priority := 100, weight := 100 }

/-- Provider B, id 2, enabled. -/
def provB : Provider :=
  { id := 2, name := "B", enabled := true, priority := 100, weight := 50 }

/-- Database with providers A and B and an empty health table. -/
def dbAB : DbState := { providers := [provA, provB], health := [] }

/-- A health row marking provider A unhealthy. -/
def unhealthyRowA : ProviderHealthRec :=
  { provider_id := 1, is_healthy := false, error_count := 5
    last_error := some "down", last_status_code := some 503
    last_validated_at := some 0, last_success_at := none
    next_retry_at := none, consecutive_successes := 0 }

/-- Same providers as dbAB, with A marked unhealthy in the health table. -/
def dbABUnhealthy : DbState :=
  { providers := [provA, provB], health := [unhealthyRowA] }

/-- A plain non-streaming request against model gpt-x. -/
def baseReq : ChatRequest :=
  { model := "gpt-x"
    messages := [{ role := .user, content := some "hi" }]
    temperature := none, top_p := none, max_tokens := none, stop := none
    stream := false, provider := none, fallback_providers := none
    timeout := none, retry_count := some 2 }

/-- The request of the retry-hint counterexample: an explicit
retry_count of 0. -/
def reqRetry0 : ChatRequest := { baseReq with retry_count := some 0 }

/-- Stand-in for the never-reached upstream call of an attempt. -/
def noUpstream : Nat → Except String ChatResponse :=
  fun _ => Except.error "unreachable upstream"

/-- The S6 request messages as the estimator receives them. -/
def helloMessages : List DictMessage :=
  [{ role := "user", content := some "Hello world" }]

/-- A data frame whose JSON carries no usage object. -/
def chunkNoUsage : PyChunk := { usage := none }

/-- Model-config row id 1 named m. -/
def mcM1 : ModelConfigRec := { id := 1, name := "m", created_at := 0 }

/-- Model-config row id 2, same logical name m. -/
def mcM2 : ModelConfigRec := { id := 2, name := "m", created_at := 0 }

/-- Constant error family: every attempt of every provider fails with
HTTP 503. -/
def errF503 : String → Nat → String := fun _ _ => "HTTP 503"

/-- A claude request with one system message, a string stop and no
max_tokens. -/
def reqWithSystem : ChatRequest :=
  { baseReq with
    model := "claude-3-opus"
    messages := [{ role := .system, content := some "be brief" },
                 { role := .user, content := some "hi" }]
    stop := some (.str "END") }

/-- A request carrying two system messages. -/
def reqTwoSystems : ChatRequest :=
  { baseReq with
    messages := [{ role := .system, content := some "first" },
                 { role := .user, content := some "hi" },
                 { role := .system, content := some "second" },
                 { role := .user, content := some "bye" }] }

/-! ## Theorems: token estimator -/

/-- The messages pattern never compiles: its backslash-p escape is a
bad escape. -/
theorem reCompileCharset_messagesPat :
    reCompileCharset messagesFindallPat = .error "bad escape \\p" := by
  rfl

/-- findall with the messages pattern fails on every haystack. -/
theorem reFindallCount_messagesPat (s : String) :
    reFindallCount messagesFindallPat s = .error "bad escape \\p" := by
  simp [reFindallCount, reCompileCharset_messagesPat, Except.map]

/-- C4: the claim states estimate_messages_tokens returns
max(floor(english / 4 + cjk / 1.5), 10) over the message contents plus
a 40-character overhead per message.  The code instead passes the
pattern with the unsupported backslash-p escape to re.findall, which
raises re.error on every call (and even absent that error, the
haystack is str(total_chars), the decimal string of the count, not the
content), so the function never returns a token count at all. -/
theorem estimate_messages_tokens_raises (messages : List DictMessage) :
    estimate_messages_tokens messages = .error "bad escape \\p" := by
  unfold estimate_messages_tokens
  simp only [reFindallCount_messagesPat]

/-- C3: for the S6 stream (content "Hello world", no usage in any
chunk) the finaliser does not log estimated usage — it logs nothing at
all.  The estimator call raises re.error and the except at chat.py:199
leaves usage_info = None; then the RequestLog construction itself
raises TypeError on its unmapped keywords, caught at chat.py:224, so
no row is persisted.  Moreover the reachable completion estimator
truncates 11 / 4 to 2, not the claimed ceil(11 / 4) = 3. -/
theorem streaming_finaliser_writes_no_row :
    extractOrEstimateUsage helloMessages (some chunkNoUsage) "Hello world" = none ∧
    estimate_messages_tokens helloMessages = .error "bad escape \\p" ∧
    sqlalchemyInit requestLogColumns streamFinaliserKwargs =
      .error "TypeError: provider_id is an invalid keyword argument" ∧
    streamFinaliserPersistedRows = 0 ∧
    estimate_completion_tokens "Hello world" = .ok 2 := by
  refine ⟨rfl, rfl, rfl, rfl, ?_⟩
  unfold estimate_completion_tokens
  rw [if_neg (by decide)]
  have hcount : reFindallCount completionFindallPat "Hello world" = .ok 11 := rfl
  rw [hcount]
  have hlen : (("Hello world".length : Nat) : ℤ) = 11 := rfl
  simp only [hlen]
  norm_num [pyInt]
  rfl

/-! ## Theorems: health prober -/

/-- C6: the prober can never perform the claimed transitions.  For
every probe outcome: with no existing health record, the creation at
health_check.py:107 raises TypeError on consecutive_failures (its
first unmapped keyword); with an existing record, the update at
health_check.py:170 raises AttributeError on total_checks.  No probe
ever sets is_healthy or resets any counter, on success or failure. -/
theorem prober_never_updates (probe : ProbeOutcome) :
    (∀ h : ProviderHealthRec,
      check_provider_health_run (some h) probe =
        .error "AttributeError: total_checks") ∧
    check_provider_health_run none probe =
      .error "TypeError: consecutive_failures is an invalid keyword argument" := by
  refine ⟨fun h => ?_, ?_⟩ <;> cases probe <;> rfl

/-! ## Theorems: request router -/

/-- Every attempt body dies at provider.api_key before any upstream
call, whatever the upstream would have answered: no provider can ever
produce a successful attempt. -/
theorem attemptOutcome_always_fails
    (upstream : Nat → Except String ChatResponse) (a : Nat) :
    attemptOutcome upstream a = Except.error "AttributeError: api_key" := rfl

/-- The retry loop when every attempt fails: remaining + 1 attempts, a
backoff sleep after each attempt but the last, one attempted
failure-log write, and a raise with the final error. -/
theorem runAttempts_all_fail (errF : Nat → String) :
    ∀ (remaining attempt : Nat),
    runAttempts (fun a => Except.error (errF a)) attempt remaining =
      { attempts := remaining + 1
        sleeps := (List.range remaining).map (fun k => min (2 ^ (attempt + k)) 10)
        logAttempts := [logFailedRequestKwargs]
        result := Except.error (errF (attempt + remaining)) } := by
  intro remaining
  induction remaining with
  | zero => intro attempt; simp [runAttempts]
  | succ n ih =>
    intro attempt
    simp only [runAttempts]
    simp only [ih (attempt + 1)]
    have h1 : attempt + 1 + n = attempt + (n + 1) := by omega
    have h2 : min (2 ^ attempt) 10 ::
        List.map (fun k => min (2 ^ (attempt + 1 + k)) 10) (List.range n)
        = List.map (fun k => min (2 ^ (attempt + k)) 10) (List.range (n + 1)) := by
      rw [List.range_succ_eq_map, List.map_cons, List.map_map]
      have h3 : (fun k => min (2 ^ (attempt + 1 + k)) 10)
          = ((fun k => min (2 ^ (attempt + k)) 10) ∘ Nat.succ) := by
        funext k
        have h4 : attempt + 1 + k = attempt + Nat.succ k := by omega
        simp [Function.comp, h4]
      rw [h3]
      simp
    rw [h1, h2]

/-- Every run of the retry loop makes at least one attempt. -/
theorem runAttempts_pos (outcome : Nat → Except String ChatResponse)
    (attempt remaining : Nat) :
    1 ≤ (runAttempts outcome attempt remaining).attempts := by
  cases remaining with
  | zero => rw [runAttempts]; cases outcome attempt <;> simp
  | succ n => rw [runAttempts]; cases outcome attempt <;> simp

/-- Every run of the retry loop attempts exactly one log write: the
success keywords or the failure keywords. -/
theorem runAttempts_logAttempts (outcome : Nat → Except String ChatResponse)
    (remaining : Nat) : ∀ attempt,
    (runAttempts outcome attempt remaining).logAttempts = [logRequestKwargs] ∨
    (runAttempts outcome attempt remaining).logAttempts = [logFailedRequestKwargs] := by
  induction remaining with
  | zero => intro attempt; rw [runAttempts]; cases outcome attempt <;> simp
  | succ n ih =>
    intro attempt
    rw [runAttempts]
    cases outcome attempt with
    | ok r => simp
    | error e => simpa using ih (attempt + 1)

/-- C1 counterexample: a request with an explicit retry hint of 0
routed to provider A, with the faithful attempt body (which fails every
attempt at provider.api_key).  The claim predicts 0 + 1 = 1 attempt;
the code evaluates `request.retry_count or settings.max_retry_count`
where 0 is falsy, so the default 3 applies and 4 attempts are made. -/
theorem retry_hint_zero_counterexample :
    effectiveRetryCount (some 0) = 3 ∧
    (try_provider dbAB "A" reqRetry0 (attemptOutcome noUpstream)).attempts = 4 ∧
    ¬ (try_provider dbAB "A" reqRetry0
        (attemptOutcome noUpstream)).attempts = 0 + 1 := by
  refine ⟨rfl, rfl, by decide⟩

/-- C1 (amended): for every retry hint r with 1 ≤ r (an explicit 0 is
falsy under the Python `or` and falls back to the default 3, see the
counterexample), _try_provider makes exactly r + 1 attempts — each
failing inside the try at provider.api_key, an attribute the Provider
model does not declare — sleeps min(2 ^ attempt, 10) seconds after
every failed attempt except the last, then attempts exactly one
failure-log write whose RequestLog constructor raises TypeError on its
unmapped keywords (swallowed at router.py:480, so no row is
persisted), and raises. -/
theorem try_provider_retry_behaviour (db : DbState) (name0 : String)
    (req : ChatRequest) (p : Provider)
    (upstream : Nat → Except String ChatResponse) (r : Nat)
    (hp : get_provider db name0 = some p)
    (hr : req.retry_count = some r) (hr1 : 1 ≤ r) :
    (try_provider db name0 req (attemptOutcome upstream)).attempts = r + 1 ∧
    (try_provider db name0 req (attemptOutcome upstream)).sleeps =
      (List.range r).map (fun a => min (2 ^ a) 10) ∧
    (try_provider db name0 req (attemptOutcome upstream)).logAttempts =
      [logFailedRequestKwargs] ∧
    persistedRows
      (try_provider db name0 req (attemptOutcome upstream)).logAttempts = 0 ∧
    (try_provider db name0 req (attemptOutcome upstream)).result =
      Except.error "AttributeError: api_key" := by
  have hout : attemptOutcome upstream =
      (fun a => Except.error ((fun _ : Nat => "AttributeError: api_key") a)) :=
    funext fun a => rfl
  have heff : effectiveRetryCount req.retry_count = r := by
    rw [hr]
    simp only [effectiveRetryCount, pyOrNat]
    rw [if_neg (by omega)]
  unfold try_provider
  rw [hp, heff, hout]
  simp only [runAttempts_all_fail (fun _ : Nat => "AttributeError: api_key") r 0]
  refine ⟨?_, ?_, ?_, ?_, ?_⟩ <;> first | rfl | simp

/-- Witness for try_provider_retry_behaviour: provider A of dbAB, retry
hint 2, with the faithful attempt body. -/
theorem try_provider_retry_behaviour_witness :
    (try_provider dbAB "A" baseReq (attemptOutcome noUpstream)).attempts = 2 + 1 ∧
    (try_provider dbAB "A" baseReq (attemptOutcome noUpstream)).sleeps =
      (List.range 2).map (fun a => min (2 ^ a) 10) ∧
    (try_provider dbAB "A" baseReq (attemptOutcome noUpstream)).logAttempts =
      [logFailedRequestKwargs] ∧
    persistedRows
      (try_provider dbAB "A" baseReq (attemptOutcome noUpstream)).logAttempts = 0 ∧
    (try_provider dbAB "A" baseReq (attemptOutcome noUpstream)).result =
      Except.error "AttributeError: api_key" :=
  try_provider_retry_behaviour dbAB "A" baseReq provA noUpstream 2
    rfl rfl (by decide)

/-- Splitting a list of attempted writes splits the persisted count. -/
theorem persistedRows_append (l1 l2 : List LogWriteAttempt) :
    persistedRows (l1 ++ l2) = persistedRows l1 + persistedRows l2 := by
  simp [persistedRows, List.filter_append]

/-- No _try_provider call persists a row: both the success write and
the failure write pass the unmapped provider_id keyword (among others),
so their constructors raise TypeError, swallowed by the helpers. -/
theorem persistedRows_try_provider (db : DbState) (n : String)
    (req : ChatRequest) (outcome : Nat → Except String ChatResponse) :
    persistedRows (try_provider db n req outcome).logAttempts = 0 := by
  unfold try_provider
  cases get_provider db n with
  | none => rfl
  | some p =>
    rcases runAttempts_logAttempts outcome
        (effectiveRetryCount req.retry_count) 0 with h | h <;>
      simp only [h] <;> rfl

/-- No provider chain persists a row. -/
theorem persistedRows_routeGo (db : DbState) (req : ChatRequest)
    (outcomes : String → Nat → Except String ChatResponse) :
    ∀ names : List String,
    persistedRows (routeGo db req outcomes names).logAttempts = 0 := by
  intro names
  induction names with
  | nil => rfl
  | cons n rest ih =>
    simp only [routeGo]
    cases hres : (try_provider db n req (outcomes n)).result with
    | ok r =>
      simp only [hres]
      exact persistedRows_try_provider db n req (outcomes n)
    | error e =>
      simp only [hres]
      rw [persistedRows_append,
        persistedRows_try_provider db n req (outcomes n), ih]

/-- C2: no terminal outcome of a non-streaming chat request persists
any request_logs row.  Every RequestLog construction in router.py and
chat.py passes keywords the model does not map, so the constructor
raises TypeError which the surrounding excepts swallow: the row count
is always 0, never 1 on success nor one per attempted provider.
Moreover no provider can succeed at all: every attempt raises at
provider.api_key before reaching the upstream. -/
theorem chat_completion_persists_no_rows (db : DbState) (n0 : String)
    (req : ChatRequest)
    (outcomes : String → Nat → Except String ChatResponse) :
    persistedRows (chatCompletionLogs db n0 req outcomes) = 0 ∧
    (∀ upstream a, attemptOutcome upstream a =
      Except.error "AttributeError: api_key") := by
  constructor
  · unfold chatCompletionLogs route_request
    cases hres : (routeGo db req outcomes
        (n0 :: req.fallback_providers.getD [])).result with
    | ok v =>
      simp only [hres]
      exact persistedRows_routeGo db req outcomes _
    | error errs =>
      simp only [hres]
      rw [persistedRows_append, persistedRows_routeGo db req outcomes _]
      rfl
  · intro upstream a
    rfl

/-- Provider lookup depends only on the providers table. -/
theorem get_provider_providers_only (db1 db2 : DbState)
    (hp : db1.providers = db2.providers) (n : String) :
    get_provider db1 n = get_provider db2 n := by
  simp [get_provider, hp]

/-- The provider loop depends only on the providers table. -/
theorem routeGo_providers_only (db1 db2 : DbState)
    (hp : db1.providers = db2.providers) (req : ChatRequest)
    (outcomes : String → Nat → Except String ChatResponse) :
    ∀ names : List String,
    routeGo db1 req outcomes names = routeGo db2 req outcomes names := by
  intro names
  induction names with
  | nil => rfl
  | cons n rest ih =>
    have ht : try_provider db1 n req (outcomes n) =
        try_provider db2 n req (outcomes n) := by
      unfold try_provider
      rw [get_provider_providers_only db1 db2 hp n]
    simp only [routeGo, ht, ih]

/-- C10: route_request never reads the health store.  For any two
database states sharing the providers table, the dispatcher produces
identical traces, provider lookup is identical, lookup checks only the
enabled flag, and any provider the lookup resolves (healthy or not) is
attempted at least once. -/
theorem route_request_ignores_health (db1 db2 : DbState)
    (hp : db1.providers = db2.providers) (name0 : String) (req : ChatRequest)
    (outcomes : String → Nat → Except String ChatResponse) :
    route_request db1 name0 req outcomes = route_request db2 name0 req outcomes ∧
    (∀ n, get_provider db1 n = get_provider db2 n) ∧
    (∀ n p, get_provider db1 n = some p → p.enabled = true) ∧
    (∀ n p, get_provider db1 n = some p →
      1 ≤ (try_provider db1 n req (outcomes n)).attempts) := by
  refine ⟨?_, fun n => get_provider_providers_only db1 db2 hp n, ?_, ?_⟩
  · unfold route_request
    exact routeGo_providers_only db1 db2 hp req outcomes _
  · intro n p hfind
    have := List.find?_some hfind
    exact (Bool.and_eq_true _ _ |>.mp this).2
  · intro n p hfind
    unfold try_provider
    rw [hfind]
    exact runAttempts_pos (outcomes n) 0 _

/-- Witness for route_request_ignores_health: dbABUnhealthy marks A
unhealthy while dbAB has no health rows; the providers tables agree, so
routing an explicit request to A behaves identically, and the unhealthy
A is still resolved and attempted. -/
theorem route_request_ignores_health_witness :
    route_request dbABUnhealthy "A" baseReq (fun n a => Except.error (errF503 n a)) =
      route_request dbAB "A" baseReq (fun n a => Except.error (errF503 n a)) ∧
    (∀ n, get_provider dbABUnhealthy n = get_provider dbAB n) ∧
    (∀ n p, get_provider dbABUnhealthy n = some p → p.enabled = true) ∧
    (∀ n p, get_provider dbABUnhealthy n = some p →
      1 ≤ (try_provider dbABUnhealthy n baseReq
        (fun a => Except.error (errF503 n a))).attempts) :=
  route_request_ignores_health dbABUnhealthy dbAB rfl "A" baseReq
    (fun n a => Except.error (errF503 n a))

/-! ## Theorems: load balancer -/

/-- Insertion keeps exactly the inserted element and the old members. -/
theorem mem_insertByPriority (p q : Provider) (l : List Provider) :
    q ∈ insertByPriority p l ↔ q = p ∨ q ∈ l := by
  induction l with
  | nil => simp [insertByPriority]
  | cons r rest ih =>
    by_cases h : r.priority < p.priority
    · simp [insertByPriority, h]
    · simp [insertByPriority, h, ih]
      tauto

/-- Sorting by priority keeps the members. -/
theorem mem_sortByPriorityDesc (q : Provider) (l : List Provider) :
    q ∈ sortByPriorityDesc l ↔ q ∈ l := by
  induction l with
  | nil => simp [sortByPriorityDesc]
  | cons r rest ih => simp [sortByPriorityDesc, mem_insertByPriority, ih]

/-- Every snapshot entry comes from an enabled provider that the
health side of the filter lets through, and carries its name. -/
theorem get_healthy_providers_sound (db : DbState) (d : ProviderData)
    (hd : d ∈ get_healthy_providers db) :
    ∃ p, p ∈ db.providers ∧ p.enabled = true ∧ snapshotHealthy db p ∧
      d.name = p.name := by
  simp only [get_healthy_providers, List.mem_filterMap] at hd
  obtain ⟨pr, hpr, hf⟩ := hd
  simp only [balancerQueryRows, List.mem_map] at hpr
  obtain ⟨p, hpmem, rfl⟩ := hpr
  rw [mem_sortByPriorityDesc, List.mem_filter] at hpmem
  by_cases hcond :
      ((findHealth db p.id).isNone ||
        ((findHealth db p.id).map (·.is_healthy)).getD false) = true
  · refine ⟨p, hpmem.1, hpmem.2, ?_, ?_⟩
    · intro hrec hfh
      rw [hfh] at hcond
      simpa using hcond
    · rw [if_pos hcond] at hf
      cases hf
      rfl
  · rw [if_neg hcond] at hf
    cases hf

/-- The cumulative walk returns the fallback name or a member name. -/
theorem weightedWalk_mem (lastName : String) (rand cumulative : ℚ) :
    ∀ ps : List ProviderData,
    weightedWalk lastName rand cumulative ps = lastName ∨
      ∃ d ∈ ps, weightedWalk lastName rand cumulative ps = d.name := by
  intro ps
  induction ps generalizing cumulative with
  | nil => left; rfl
  | cons p rest ih =>
    by_cases h : rand ≤ cumulative + (p.weight : ℚ)
    · right
      exact ⟨p, by simp, by simp [weightedWalk, h]⟩
    · rcases ih (cumulative + (p.weight : ℚ)) with hlast | ⟨d, hdmem, hdeq⟩
      · left; simpa [weightedWalk, h] using hlast
      · right
        exact ⟨d, by simp [hdmem], by simpa [weightedWalk, h] using hdeq⟩

/-- Weighted random selection returns the name of a member of its
input list whenever that list is nonempty. -/
theorem weighted_random_selection_mem (providers : List ProviderData)
    (rand : ℚ) (choiceIdx : Nat) (hne : providers ≠ []) :
    ∃ name, weighted_random_selection providers rand choiceIdx = .ok name ∧
      ∃ d ∈ providers, d.name = name := by
  match providers with
  | [] => exact absurd rfl hne
  | p0 :: rest =>
    by_cases hrest : rest = ([] : List ProviderData)
    · refine ⟨p0.name, ?_, p0, by simp, rfl⟩
      simp [weighted_random_selection, hrest]
    · simp only [weighted_random_selection, if_neg hrest]
      by_cases htot : (p0 :: rest).foldl (fun acc p => acc + p.weight) 0 = 0
      · rw [if_pos htot]
        refine ⟨_, rfl, ?_⟩
        exact ⟨_, List.get_mem _ _ _, rfl⟩
      · rw [if_neg htot]
        rcases weightedWalk_mem (((p0 :: rest).getLast (by simp)).name) rand 0
            (p0 :: rest) with hlast | ⟨d, hdmem, hdeq⟩
        · refine ⟨_, rfl, (p0 :: rest).getLast (by simp), List.getLast_mem _, ?_⟩
          exact hlast.symm
        · exact ⟨_, rfl, d, hdmem, hdeq.symm⟩

/-- A successful fallback scan returns the name of a snapshot member. -/
theorem fallbackScan_mem (providersData : List ProviderData) :
    ∀ (fbs : List String) (name : String),
    fallbackScan providersData fbs = some name →
    ∃ d ∈ providersData, d.name = name := by
  intro fbs
  induction fbs with
  | nil => intro name h; cases h
  | cons fn rest ih =>
    intro name h
    simp only [fallbackScan] at h
    cases hfind : providersData.find? (fun d => d.name == fn && d.is_healthy) with
    | none =>
      rw [hfind] at h
      exact ih name h
    | some d =>
      rw [hfind] at h
      cases h
      refine ⟨d, List.mem_of_find?_eq_some hfind, ?_⟩
      have := List.find?_some hfind
      have hn := (Bool.and_eq_true _ _ |>.mp this).1
      exact eq_of_beq hn

/-- C5: whenever the loaded snapshot of enabled-and-healthy providers
is nonempty, select_provider returns the name of some provider that is
enabled and healthy in that snapshot (a provider with no health row
counting as healthy); it never returns a provider the filter excluded. -/
theorem select_provider_returns_healthy (db : DbState)
    (fallback_providers : Option (List String)) (rand : ℚ) (choiceIdx : Nat)
    (hne : get_healthy_providers db ≠ []) :
    ∃ name, select_provider db fallback_providers rand choiceIdx = Except.ok name ∧
      ∃ p, p ∈ db.providers ∧ p.enabled = true ∧ snapshotHealthy db p ∧
        p.name = name := by
  unfold select_provider
  rw [if_neg hne]
  cases fallback_providers with
  | none =>
    obtain ⟨name, hsel, d, hdmem, hdname⟩ :=
      weighted_random_selection_mem (get_healthy_providers db) rand choiceIdx hne
    obtain ⟨p, hp, hpen, hph, hdp⟩ := get_healthy_providers_sound db d hdmem
    exact ⟨name, hsel, p, hp, hpen, hph, by rw [← hdp, hdname]⟩
  | some fbs =>
    cases hscan : fallbackScan (get_healthy_providers db) fbs with
    | some name =>
      obtain ⟨d, hdmem, hdname⟩ :=
        fallbackScan_mem (get_healthy_providers db) fbs name hscan
      obtain ⟨p, hp, hpen, hph, hdp⟩ := get_healthy_providers_sound db d hdmem
      refine ⟨name, ?_, p, hp, hpen, hph, by rw [← hdp, hdname]⟩
      simp only [hscan]
    | none =>
      obtain ⟨name, hsel, d, hdmem, hdname⟩ :=
        weighted_random_selection_mem (get_healthy_providers db) rand choiceIdx hne
      obtain ⟨p, hp, hpen, hph, hdp⟩ := get_healthy_providers_sound db d hdmem
      refine ⟨name, ?_, p, hp, hpen, hph, by rw [← hdp, hdname]⟩
      simp only [hscan]
      exact hsel

/-- Witness for select_provider_returns_healthy: dbABUnhealthy, where A
is marked unhealthy and B healthy, with no fallback list. -/
theorem select_provider_returns_healthy_witness :
    ∃ name, select_provider dbABUnhealthy none 30 0 = Except.ok name ∧
      ∃ p, p ∈ dbABUnhealthy.providers ∧ p.enabled = true ∧
        snapshotHealthy dbABUnhealthy p ∧ p.name = name :=
  select_provider_returns_healthy dbABUnhealthy none 30 0 (by decide)

/-! ## Theorems: request conversions -/

/-- The Anthropic message loop, characterised: the system slot ends as
a fold over system contents and the outgoing list appends the converted
non-system messages. -/
theorem anthropicHoist_go (msgs : List Message) (acc : Option String)
    (l : List (String × Option String)) :
    msgs.foldl
      (fun acc m =>
        if m.role = .system then (m.content, acc.2)
        else
          (acc.1,
           acc.2 ++ [(if m.role = .user then "user" else "assistant", m.content)]))
      (acc, l) =
    (msgs.foldl (fun a m => if m.role = .system then m.content else a) acc,
     l ++ (msgs.filter (fun m => !decide (m.role = .system))).map
       (fun m => (if m.role = .user then "user" else "assistant", m.content))) := by
  induction msgs generalizing acc l with
  | nil => simp
  | cons m ms ih =>
    by_cases h : m.role = .system
    · simp [List.foldl_cons, List.filter_cons, h, ih]
    · simp [List.foldl_cons, List.filter_cons, h, ih]

/-- The Gemini message loop, characterised the same way. -/
theorem geminiHoist_go (msgs : List Message) (acc : Option String)
    (l : List GeminiContent) :
    msgs.foldl
      (fun acc m =>
        if m.role = .system then (m.content, acc.2)
        else
          (acc.1,
           acc.2 ++ [{ role := if m.role = .user then "user" else "model"
                       parts := [m.content] }]))
      (acc, l) =
    (msgs.foldl (fun a m => if m.role = .system then m.content else a) acc,
     l ++ (msgs.filter (fun m => !decide (m.role = .system))).map
       (fun m => { role := if m.role = .user then "user" else "model"
                   parts := [m.content] })) := by
  induction msgs generalizing acc l with
  | nil => simp
  | cons m ms ih =>
    by_cases h : m.role = .system
    · simp [List.foldl_cons, List.filter_cons, h, ih]
    · simp [List.foldl_cons, List.filter_cons, h, ih]

/-- A fold for the last system content passes over system-free lists. -/
theorem lastSystem_foldl_no_system (msgs : List Message) (acc : Option String)
    (h : ∀ m ∈ msgs, m.role ≠ .system) :
    msgs.foldl (fun a m => if m.role = .system then m.content else a) acc = acc := by
  induction msgs generalizing acc with
  | nil => rfl
  | cons m ms ih =>
    have hm : ¬ m.role = .system := h m (by simp)
    rw [List.foldl_cons, if_neg hm]
    exact ih acc (fun m2 hm2 => h m2 (by simp [hm2]))

/-- C7: the Anthropic request mapping hoists the system message out of
the message list into the top-level system field, maps the remaining
messages to roles user/assistant, defaults max_tokens to 4096 when the
request carries none (and keeps a present positive value), renames a
present stop to stop_sequences (wrapping a bare string), and maps the
model name through the alias table with passthrough on miss. -/
theorem anthropic_request_mapping (req : ChatRequest)
    (pre post : List Message) (sysc : String)
    (hmsgs : req.messages = pre ++ { role := .system, content := some sysc } :: post)
    (hpre : ∀ m ∈ pre, m.role ≠ .system)
    (hpost : ∀ m ∈ post, m.role ≠ .system)
    (hsys : sysc ≠ "") :
    (convert_to_anthropic_format req).system = some sysc ∧
    (convert_to_anthropic_format req).messages =
      (pre ++ post).map
        (fun m => (if m.role = .user then "user" else "assistant", m.content)) ∧
    (∀ rm ∈ (convert_to_anthropic_format req).messages,
      rm.1 = "user" ∨ rm.1 = "assistant") ∧
    (req.max_tokens = none → (convert_to_anthropic_format req).max_tokens = 4096) ∧
    (∀ n, req.max_tokens = some n → 1 ≤ n →
      (convert_to_anthropic_format req).max_tokens = n) ∧
    (∀ s, req.stop = some (.str s) → s ≠ "" →
      (convert_to_anthropic_format req).stop_sequences = some [s]) ∧
    (∀ l, req.stop = some (.list l) → l ≠ [] →
      (convert_to_anthropic_format req).stop_sequences = some l) ∧
    (req.model = "claude-3-opus" →
      (convert_to_anthropic_format req).model = "claude-3-opus-20240229") ∧
    (anthropicModelMap.find? (fun kv => kv.1 == req.model) = none →
      (convert_to_anthropic_format req).model = req.model) := by
  have hhoist := anthropicHoist_go req.messages none []
  have hsysfold :
      req.messages.foldl (fun a m => if m.role = .system then m.content else a) none =
        some sysc := by
    rw [hmsgs, List.foldl_append, List.foldl_cons]
    rw [if_pos rfl]
    exact lastSystem_foldl_no_system post _ hpost
  have hfilter :
      req.messages.filter (fun m => !decide (m.role = .system)) = pre ++ post := by
    rw [hmsgs, List.filter_append, List.filter_cons]
    simp only [decide_True, Bool.not_true, if_neg (by simp : ¬ (false = true))]
    rw [List.filter_eq_self.mpr, List.filter_eq_self.mpr]
    · intro m hm; simpa using hpost m hm
    · intro m hm; simpa using hpre m hm
  refine ⟨?_, ?_, ?_, ?_, ?_, ?_, ?_, ?_, ?_⟩
  · show pyTruthyStr (anthropicHoist req.messages).1 = some sysc
    unfold anthropicHoist
    rw [hhoist]
    simp [hsysfold, pyTruthyStr, hsys]
  · show (anthropicHoist req.messages).2 = _
    unfold anthropicHoist
    rw [hhoist]
    simp [hfilter]
  · intro rm hrm
    have : (anthropicHoist req.messages).2 =
        (pre ++ post).map
          (fun m => (if m.role = .user then "user" else "assistant", m.content)) := by
      unfold anthropicHoist
      rw [hhoist]
      simp [hfilter]
    rw [show (convert_to_anthropic_format req).messages =
        (anthropicHoist req.messages).2 from rfl, this] at hrm
    simp only [List.mem_map] at hrm
    obtain ⟨m, _, rfl⟩ := hrm
    by_cases hu : m.role = .user
    · left; simp [hu]
    · right; simp [hu]
  · intro hnone
    show pyOrNat req.max_tokens 4096 = 4096
    rw [hnone]; rfl
  · intro n hsome hpos
    show pyOrNat req.max_tokens 4096 = n
    rw [hsome]
    simp only [pyOrNat]
    rw [if_neg (by omega)]
  · intro s hstop hne
    show pyStopSequences req.stop = some [s]
    rw [hstop]
    simp [pyStopSequences, hne]
  · intro l hstop hne
    show pyStopSequences req.stop = some l
    rw [hstop]
    simp [pyStopSequences, hne]
  · intro hm
    show map_model_name req.model = _
    rw [hm]
    rfl
  · intro hmiss
    show map_model_name req.model = req.model
    unfold map_model_name
    rw [hmiss]

/-- Witness for anthropic_request_mapping: a claude-3-opus request with
one system message, one user message, stop "END" and no max_tokens. -/
theorem anthropic_request_mapping_witness :
    (convert_to_anthropic_format reqWithSystem).system = some "be brief" ∧
    (convert_to_anthropic_format reqWithSystem).messages =
      (([] ++ [{ role := .user, content := some "hi" }] : List Message)).map
        (fun m => (if m.role = .user then "user" else "assistant", m.content)) ∧
    (∀ rm ∈ (convert_to_anthropic_format reqWithSystem).messages,
      rm.1 = "user" ∨ rm.1 = "assistant") ∧
    (reqWithSystem.max_tokens = none →
      (convert_to_anthropic_format reqWithSystem).max_tokens = 4096) ∧
    (∀ n, reqWithSystem.max_tokens = some n → 1 ≤ n →
      (convert_to_anthropic_format reqWithSystem).max_tokens = n) ∧
    (∀ s, reqWithSystem.stop = some (.str s) → s ≠ "" →
      (convert_to_anthropic_format reqWithSystem).stop_sequences = some [s]) ∧
    (∀ l, reqWithSystem.stop = some (.list l) → l ≠ [] →
      (convert_to_anthropic_format reqWithSystem).stop_sequences = some l) ∧
    (reqWithSystem.model = "claude-3-opus" →
      (convert_to_anthropic_format reqWithSystem).model = "claude-3-opus-20240229") ∧
    (anthropicModelMap.find? (fun kv => kv.1 == reqWithSystem.model) = none →
      (convert_to_anthropic_format reqWithSystem).model = reqWithSystem.model) :=
  anthropic_request_mapping reqWithSystem []
    [{ role := .user, content := some "hi" }] "be brief"
    rfl (by simp) (by decide) (by decide)

/-- C9: when the message list holds two or more system messages, both
the Anthropic and the Gemini conversion keep only the LAST system
message as the top-level system field / systemInstruction, and the
outgoing message lists are exactly the converted non-system messages,
so every earlier system message is dropped entirely. -/
theorem multiple_system_messages_last_wins (req : ChatRequest)
    (pre mid post : List Message) (c1 : Option String) (c : String)
    (hmsgs : req.messages =
      pre ++ { role := .system, content := c1 } ::
        (mid ++ { role := .system, content := some c } :: post))
    (hpost : ∀ m ∈ post, m.role ≠ .system)
    (hc : c ≠ "") :
    (convert_to_anthropic_format req).system = some c ∧
    (convert_to_gemini_format req).systemInstruction = some c ∧
    (convert_to_anthropic_format req).messages =
      (req.messages.filter (fun m => !decide (m.role = .system))).map
        (fun m => (if m.role = .user then "user" else "assistant", m.content)) ∧
    (convert_to_gemini_format req).contents =
      (req.messages.filter (fun m => !decide (m.role = .system))).map
        (fun m => { role := if m.role = .user then "user" else "model"
                    parts := [m.content] }) := by
  have hsysfold :
      req.messages.foldl (fun a m => if m.role = .system then m.content else a) none =
        some c := by
    rw [hmsgs, List.foldl_append, List.foldl_cons, List.foldl_append,
      List.foldl_cons]
    rw [if_pos rfl]
    exact lastSystem_foldl_no_system post _ hpost
  refine ⟨?_, ?_, ?_, ?_⟩
  · show pyTruthyStr (anthropicHoist req.messages).1 = some c
    unfold anthropicHoist
    rw [anthropicHoist_go req.messages none []]
    simp [hsysfold, pyTruthyStr, hc]
  · show pyTruthyStr (geminiHoist req.messages).1 = some c
    unfold geminiHoist
    rw [geminiHoist_go req.messages none []]
    simp [hsysfold, pyTruthyStr, hc]
  · show (anthropicHoist req.messages).2 = _
    unfold anthropicHoist
    rw [anthropicHoist_go req.messages none []]
    simp
  · show (geminiHoist req.messages).2 = _
    unfold geminiHoist
    rw [geminiHoist_go req.messages none []]
    simp

/-- Witness for multiple_system_messages_last_wins: a request with
system messages "first" and "second" around user messages. -/
theorem multiple_system_messages_last_wins_witness :
    (convert_to_anthropic_format reqTwoSystems).system = some "second" ∧
    (convert_to_gemini_format reqTwoSystems).systemInstruction = some "second" ∧
    (convert_to_anthropic_format reqTwoSystems).messages =
      (reqTwoSystems.messages.filter (fun m => !decide (m.role = .system))).map
        (fun m => (if m.role = .user then "user" else "assistant", m.content)) ∧
    (convert_to_gemini_format reqTwoSystems).contents =
      (reqTwoSystems.messages.filter (fun m => !decide (m.role = .system))).map
        (fun m => { role := if m.role = .user then "user" else "model"
                    parts := [m.content] }) :=
  multiple_system_messages_last_wins reqTwoSystems []
    [{ role := .user, content := some "hi" }]
    [{ role := .user, content := some "bye" }]
    (some "first") "second" rfl (by decide) (by decide)

/-! ## Theorems: models listing -/

/-- C8 counterexample: two enabled providers A and B whose ids pair
with two model-config rows both named m.  The response carries TWO
entries for the single logical model m (ids "A:m" and "B:m"), and their
owned_by fields are the provider names, not "orchestrator". -/
theorem models_listing_counterexample :
    (list_models [mcM1, mcM2] [provA, provB]).data.length = 2 ∧
    (list_models [mcM1, mcM2] [provA, provB]).data.map (·.id) = ["A:m", "B:m"] ∧
    (list_models [mcM1, mcM2] [provA, provB]).data.map (·.owned_by) =
      [some "A", some "B"] ∧
    ¬ (∀ e ∈ (list_models [mcM1, mcM2] [provA, provB]).data,
        e.owned_by = some "orchestrator") := by
  refine ⟨rfl, rfl, rfl, ?_⟩
  intro h
  have := h (mkModelEntry (mcM1, provA)) (by decide)
  simp [mkModelEntry, provA] at this

/-- C8 (amended): GET /v1/models returns object "list"; each data
entry carries object "model", id "provider_name:model_name", the model
row's created timestamp, and owned_by equal to the PROVIDER name (not
"orchestrator"); there is one entry per pairing of a model-config row
with the enabled provider sharing its id, with no deduplication by
logical model name. -/
theorem models_listing_shape (modelConfigs : List ModelConfigRec)
    (providers : List Provider) :
    (list_models modelConfigs providers).object = "list" ∧
    ∀ e ∈ (list_models modelConfigs providers).data,
      e.object = "model" ∧
      ∃ mc p, mc ∈ modelConfigs ∧ p ∈ providers ∧ p.enabled = true ∧
        p.id = mc.id ∧ e.id = p.name ++ ":" ++ mc.name ∧
        e.owned_by = some p.name ∧ e.created = mc.created_at := by
  refine ⟨rfl, ?_⟩
  intro e he
  simp only [list_models, List.mem_map] at he
  obtain ⟨row, hrow, rfl⟩ := he
  simp only [modelsQueryRows, List.mem_flatMap, List.mem_map] at hrow
  obtain ⟨mc, hmc, p, hp, rfl⟩ := hrow
  rw [List.mem_filter] at hp
  have hcond := hp.2
  rw [Bool.and_eq_true] at hcond
  refine ⟨rfl, mc, p, hmc, hp.1, hcond.2, ?_, rfl, rfl, rfl⟩
  exact eq_of_beq hcond.1

/-- Witness for models_listing_shape: the single pairing of mcM1 with
provider A. -/
theorem models_listing_shape_witness :
    (list_models [mcM1] [provA]).object = "list" ∧
    ((mkModelEntry (mcM1, provA)).object = "model" ∧
      ∃ mc p, mc ∈ [mcM1] ∧ p ∈ [provA] ∧ p.enabled = true ∧
        p.id = mc.id ∧ (mkModelEntry (mcM1, provA)).id = p.name ++ ":" ++ mc.name ∧
        (mkModelEntry (mcM1, provA)).owned_by = some p.name ∧
        (mkModelEntry (mcM1, provA)).created = mc.created_at) :=
  ⟨(models_listing_shape [mcM1] [provA]).1,
   (models_listing_shape [mcM1] [provA]).2 (mkModelEntry (mcM1, provA)) (by decide)⟩
